import Mathlib

/-!
Verification development for the blink-middleware repository: a shallow
embedding of the Blink live-view command-lifecycle adapter
(`internal/adapters/blink/blink.go`), the binary framing protocol and the
stream transport (`internal/protocol/blink`, `internal/transport`), and the
client state machine (`pkg/liveview/liveview.go`), together with theorems
settling the specification claims about them.

Machine integers are modelled as `Int`/`Nat` with explicit `% 2^w` where the
Go code truncates; fallible operations return `Except`/`Option`; HTTP and
clock effects are passed in explicitly as oracle values.
-/

deriving instance DecidableEq for Except

namespace BlinkMw

/-! ### Go standard-library semantics used by the adapter -/

/-- Splitting a character list on a separator character, accumulator-style.
Models the behaviour of Go `strings.Split` (for a one-character separator):
splitting the empty string yields `[""]`, and a trailing separator yields a
trailing empty segment. -/
def goSplitCharAux (sep : Char) : List Char → List Char → List (List Char)
  | [], acc => [acc.reverse]
  | c :: rest, acc =>
    if c = sep then acc.reverse :: goSplitCharAux sep rest []
    else goSplitCharAux sep rest (c :: acc)

/-- Go `strings.Split(s, sep)` for a one-character separator `sep` (the two
uses in the adapter split on "/" and "_"). -/
def goSplit1 (s : String) (sep : Char) : List String :=
  (goSplitCharAux sep s.data []).map List.asString

/-- Numeric value of a decimal digit character, `none` for non-digits. -/
def digitVal (c : Char) : Option Nat :=
  if '0' ≤ c ∧ c ≤ '9' then some (c.toNat - '0'.toNat) else none

/-- Folds a list of decimal digit characters into a number; `none` as soon as
a non-digit is seen. -/
def digitsToNatAux : List Char → Nat → Option Nat
  | [], acc => some acc
  | c :: rest, acc =>
    match digitVal c with
    | some d => digitsToNatAux rest (acc * 10 + d)
    | none => none

/-- A non-empty all-digit character list as a number. -/
def digitsToNat (cs : List Char) : Option Nat :=
  if cs = [] then none else digitsToNatAux cs 0

/-- Go `strconv.Atoi`: an optional leading sign followed by at least one
decimal digit, spanning the whole string, subject to the 64-bit signed
integer range. Returns the parsed value or an error. -/
def goAtoi (s : String) : Except String Int :=
  let signAndDigits : Bool × List Char :=
    match s.data with
    | '+' :: rest => (false, rest)
    | '-' :: rest => (true, rest)
    | l => (false, l)
  match digitsToNat signAndDigits.2 with
  | none => .error "invalid syntax"
  | some n =>
    let v : Int := if signAndDigits.1 then -(n : Int) else (n : Int)
    if v < -(2 ^ 63 : Int) ∨ (2 ^ 63 : Int) - 1 < v then .error "value out of range"
    else .ok v

/-! ### Command lifecycle adapter: connection-string parsing

`ParseConnectionString` (blink.go:72-102) first runs `url.Parse` and then
inspects only the hostname, port, path and the `client_id` query parameter.
The embedding takes the parsed URL as a structure holding exactly those four
observations (`queryClientId` is `Query().Get("client_id")`, the empty string
when the parameter is absent). -/

/-- The fields of a Go `url.URL` that `ParseConnectionString` reads. -/
structure GoURL where
  hostname : String
  port : String
  path : String
  queryClientId : String
deriving DecidableEq

/-- `ParseConnectionString` (blink.go:72-102): validates hostname, port 443,
extracts the connection id as the part of the last path segment before "_",
and the client id from the `client_id` query parameter via `Atoi`; a zero or
unparseable client id is rejected. Returns (hostname, port, clientID,
connectionID). -/
def parseConnectionString (u : GoURL) :
    Except String (String × String × Int × String) :=
  if u.hostname = "" then .error "invalid host"
  else if u.port ≠ "443" then
    .error ("unexpected port " ++ u.port ++ ". Expecting 443")
  else if (goSplit1 u.path '/').length = 0 then .error "invalid path"
  else if (goSplit1 ((goSplit1 u.path '/').getLastD "") '_').length < 2 ∨
      (goSplit1 ((goSplit1 u.path '/').getLastD "") '_').headD "" = "" then
    .error "invalid connection ID"
  else
    match goAtoi u.queryClientId with
    | .error _ => .error "invalid client ID"
    | .ok clientID =>
      if clientID = 0 then .error "invalid client ID"
      else .ok (u.hostname, u.port, clientID,
        (goSplit1 ((goSplit1 u.path '/').getLastD "") '_').headD "")

/-! ### Command lifecycle adapter: URI building -/

/-- `ClientCredentials` (blink.go:18-31). -/
structure ClientCredentials where
  region : String
  apiToken : String
  deviceType : String
  accountId : Int
  networkId : Int
  cameraId : Int
deriving DecidableEq

/-- A `fmt.Sprintf` argument: a string (for `%s`) or an integer (for `%d`). -/
inductive FmtArg
  | fs (v : String)
  | fd (v : Int)
deriving DecidableEq

/-- Character-level model of Go `fmt.Sprintf` restricted to the `%s` and `%d`
verbs (the only ones the adapter uses); `%d` renders an integer in decimal
with a leading minus sign when negative, as `toString` on `Int` does. -/
def goSprintfAux : List Char → List FmtArg → String
  | [], _ => ""
  | '%' :: 's' :: rest, FmtArg.fs v :: args => v ++ goSprintfAux rest args
  | '%' :: 'd' :: rest, FmtArg.fd v :: args => toString v ++ goSprintfAux rest args
  | c :: rest, args => String.singleton c ++ goSprintfAux rest args

/-- Go `fmt.Sprintf` over a format string, `%s`/`%d` verbs only. -/
def goSprintf (fmt : String) (args : List FmtArg) : String :=
  goSprintfAux fmt.data args

/-- `BASE_URL` (blink.go:16). -/
def BASE_URL : String := "https://rest-%s.immedia-semi.com"

/-- `CreateLiveViewURI` (blink.go:38-54): a switch on the device type picks
the path template ("camera" → v5 cameras; "owl"/"hawk" → v2 owls;
"doorbell"/"lotus" → v2 doorbells); any other device type leaves the path
empty and yields the unknown-device error. -/
def createLiveViewURI (cc : ClientCredentials) : Except String String :=
  let path : String :=
    if cc.deviceType = "camera" then "/api/v5/accounts/%d/networks/%d/cameras/%d/liveview"
    else if cc.deviceType = "owl" ∨ cc.deviceType = "hawk" then
      "/api/v2/accounts/%d/networks/%d/owls/%d/liveview"
    else if cc.deviceType = "doorbell" ∨ cc.deviceType = "lotus" then
      "/api/v2/accounts/%d/networks/%d/doorbells/%d/liveview"
    else ""
  if path ≠ "" then
    .ok (goSprintf (BASE_URL ++ path)
      [.fs cc.region, .fd cc.accountId, .fd cc.networkId, .fd cc.cameraId])
  else .error ("cannot build path for unknown device type: " ++ cc.deviceType)

/-- `CreatePollingURI` (blink.go:63-65). -/
def createPollingURI (cc : ClientCredentials) (commandId : Int) : Except String String :=
  .ok (goSprintf (BASE_URL ++ "/network/%d/command/%d")
    [.fs cc.region, .fd cc.networkId, .fd commandId])

/-- Claim-side model of the live-view URI mapping, written from the spec's
words: tag "camera" yields the `/api/v5/.../cameras/...` template, tags
"owl"/"hawk" the `/api/v2/.../owls/...` template, tags "doorbell"/"lotus"
the `/api/v2/.../doorbells/...` template, with the region and the three ids
substituted in that order; every other tag is unsupported (`none`). -/
def liveViewURISpec (cc : ClientCredentials) : Option String :=
  if cc.deviceType = "camera" then
    some ("https://rest-" ++ (cc.region ++ (".immedia-semi.com/api/v5/accounts/" ++
      (toString cc.accountId ++ ("/networks/" ++ (toString cc.networkId ++
      ("/cameras/" ++ (toString cc.cameraId ++ "/liveview"))))))))
  else if cc.deviceType = "owl" ∨ cc.deviceType = "hawk" then
    some ("https://rest-" ++ (cc.region ++ (".immedia-semi.com/api/v2/accounts/" ++
      (toString cc.accountId ++ ("/networks/" ++ (toString cc.networkId ++
      ("/owls/" ++ (toString cc.cameraId ++ "/liveview"))))))))
  else if cc.deviceType = "doorbell" ∨ cc.deviceType = "lotus" then
    some ("https://rest-" ++ (cc.region ++ (".immedia-semi.com/api/v2/accounts/" ++
      (toString cc.accountId ++ ("/networks/" ++ (toString cc.networkId ++
      ("/doorbells/" ++ (toString cc.cameraId ++ "/liveview"))))))))
  else none

/-! ### Command lifecycle adapter: HTTP response handling

Each adapter operation performs `resp, err := client.Do(req)` and then runs
`if resp.StatusCode != http.StatusOK || err != nil`. The `client.Do` outcome
is modelled as an `Except`: `.error e` is the transport-error case in which
Go returns a nil `*http.Response` together with a non-nil error, and `.ok`
carries the response. Evaluating `resp.StatusCode` on a nil response is a
nil-pointer dereference, modelled by the `nilPanic` outcome. The body is
carried as the combined result of `io.ReadAll` + `json.Unmarshal`. -/

/-- Outcome of a Go function that can also crash with a runtime panic. -/
inductive GoOutcome (α : Type) where
  | ok (val : α)
  | err (msg : String)
  | nilPanic
deriving DecidableEq

/-- The observations an adapter operation makes of a non-nil
`*http.Response`: the status code, and the decoded body (`.error` for an
`io.ReadAll` or `json.Unmarshal` failure). -/
structure GoHttpResponse (α : Type) where
  statusCode : Int
  body : Except String α

/-- `CommandResponse` (blink.go:117-122). -/
structure CommandResponse where
  code : Int
  statusCode : Int
  message : String
  complete : Bool
deriving DecidableEq

/-- `LiveviewResponse` (blink.go:185-189), with the `Server` connection
string carried in the form `ParseConnectionString` observes it after
`url.Parse` (see `GoURL`). -/
structure LiveviewResponse where
  commandId : Int
  pollingInterval : Int
  server : GoURL
deriving DecidableEq

/-- One iteration of the `PollCommand` response handling (blink.go:148-176),
from the `client.Do` outcome onward. On a transport error `resp` is nil and
the guard `resp.StatusCode != http.StatusOK || err != nil` dereferences it
(`nilPanic`); a non-200 status or body failure terminates with an error; a
response whose `Complete` flag is set terminates with the
marked-as-complete error; otherwise the loop continues (`ok ()`). -/
def pollIteration (doResult : Except String (GoHttpResponse CommandResponse)) :
    GoOutcome Unit :=
  match doResult with
  | .error _ => .nilPanic
  | .ok resp =>
    if resp.statusCode ≠ 200 then
      .err ("error polling command. HTTP Status Code " ++ toString resp.statusCode)
    else
      match resp.body with
      | .error e => .err e
      | .ok result =>
        if result.complete then .err "command marked as complete. Cannot poll further"
        else .ok ()

/-- `InitiateLiveView` response handling (blink.go:212-231), from the
`client.Do` outcome onward: transport error → nil dereference (`nilPanic`);
non-200 status → API error; body decode failure → that error; a decoded
response with a zero command id → the liveview-command error; otherwise the
decoded response. -/
def initiateLiveViewOutcome
    (doResult : Except String (GoHttpResponse LiveviewResponse)) :
    GoOutcome LiveviewResponse :=
  match doResult with
  | .error _ => .nilPanic
  | .ok resp =>
    if resp.statusCode ≠ 200 then
      .err ("error from API. HTTP Status Code " ++ toString resp.statusCode)
    else
      match resp.body with
      | .error e => .err e
      | .ok result =>
        if result.commandId = 0 then .err "error sending liveview command"
        else .ok result

/-- `StopCommand` response handling (blink.go:255-276), from the `client.Do`
outcome onward: transport error → nil dereference (`nilPanic`); non-200
status → stop error; body decode failure → that error; a decoded status
whose code is not 902 → the stop error carrying the vendor code and
message; code 902 → success. -/
def stopCommandOutcome (doResult : Except String (GoHttpResponse CommandResponse)) :
    GoOutcome Unit :=
  match doResult with
  | .error _ => .nilPanic
  | .ok resp =>
    if resp.statusCode ≠ 200 then
      .err ("cannot stop command. HTTP Status Code " ++ toString resp.statusCode)
    else
      match resp.body with
      | .error e => .err e
      | .ok result =>
        if result.code ≠ 902 then
          .err ("cannot stop command. API Code " ++ toString result.code ++
            " with message " ++ result.message)
        else .ok ()

/-! ### Framing protocol (`internal/protocol/blink`)

Byte sequences are modelled as `List Nat` with every element below 256. -/

/-- `FRAMES_KEEPALIVE`: the fixed 33-byte keep-alive ping frame. -/
def FRAMES_KEEPALIVE : List Nat :=
  [0x12, 0x00, 0x00, 0x03, 0xe8, 0x00, 0x00, 0x00,
   0x18, 0x00, 0x00, 0x00, 0x00, 0x00, 0x00, 0x00,
   0x00, 0x00, 0x00, 0x00, 0x00, 0x00, 0x00, 0x00,
   0x00, 0x00, 0x00, 0x00, 0x00, 0x00, 0x01, 0x00,
   0x00]

/-- Frame 1 of `GenerateAuthFrames`: the fixed 24-byte header constant. -/
def authFrame1 : List Nat :=
  [0x00, 0x00, 0x00, 0x28, 0x00, 0x00, 0x00, 0x00,
   0x00, 0x00, 0x00, 0x00, 0x00, 0x00, 0x00, 0x00,
   0x00, 0x00, 0x00, 0x00, 0x00, 0x00, 0x00, 0x00]

/-- Frame 3 of `GenerateAuthFrames`: the fixed 74-byte header constant
ending in the length-marker byte 0x10. -/
def authFrame3 : List Nat :=
  [0x01, 0x08, 0x00, 0x00, 0x00, 0x00, 0x00, 0x00,
   0x00, 0x00, 0x00, 0x00, 0x00, 0x00, 0x00, 0x00,
   0x00, 0x00, 0x00, 0x00, 0x00, 0x00, 0x00, 0x00,
   0x00, 0x00, 0x00, 0x00, 0x00, 0x00, 0x00, 0x00,
   0x00, 0x00, 0x00, 0x00, 0x00, 0x00, 0x00, 0x00,
   0x00, 0x00, 0x00, 0x00, 0x00, 0x00, 0x00, 0x00,
   0x00, 0x00, 0x00, 0x00, 0x00, 0x00, 0x00, 0x00,
   0x00, 0x00, 0x00, 0x00, 0x00, 0x00, 0x00, 0x00,
   0x00, 0x00, 0x00, 0x00, 0x00, 0x00, 0x00, 0x00,
   0x00, 0x10]

/-- Frame 5 of `GenerateAuthFrames`: the fixed 13-byte trailer constant. -/
def authFrame5 : List Nat :=
  [0x00, 0x00, 0x00, 0x01, 0x0a, 0x00, 0x00, 0x00,
   0x00, 0x00, 0x00, 0x00, 0x00]

/-- Go conversion `uint32(clientId)` for `clientId : int`: the value reduced
modulo 2^32 (two's-complement truncation for negative values). -/
def goUint32 (v : Int) : Nat := (v % (2 ^ 32 : Int)).toNat

/-- `binary.BigEndian.PutUint32` into a 4-byte buffer: the four big-endian
bytes of the (already truncated) value. -/
def putUint32BE (v : Nat) : List Nat :=
  [v / 2 ^ 24 % 256, v / 2 ^ 16 % 256, v / 2 ^ 8 % 256, v % 256]

/-- The UTF-8 encoding of one character. -/
def utf8Bytes (c : Char) : List Nat :=
  let v := c.toNat
  if v < 0x80 then [v]
  else if v < 0x800 then
    [0xC0 ||| (v >>> 6), 0x80 ||| (v &&& 0x3F)]
  else if v < 0x10000 then
    [0xE0 ||| (v >>> 12), 0x80 ||| ((v >>> 6) &&& 0x3F), 0x80 ||| (v &&& 0x3F)]
  else
    [0xF0 ||| (v >>> 18), 0x80 ||| ((v >>> 12) &&& 0x3F),
     0x80 ||| ((v >>> 6) &&& 0x3F), 0x80 ||| (v &&& 0x3F)]

/-- Go `[]byte(s)`: the UTF-8 bytes of the string, no terminator. -/
def goStringBytes (s : String) : List Nat :=
  s.data.flatMap utf8Bytes

/-- `GenerateAuthFrames` (part_001, `GenerateAuthFrames`): the ordered five
handshake byte blocks — fixed 24-byte header, 4-byte big-endian client id
(after Go's `uint32` conversion), fixed 74-byte header, raw connection-id
bytes, fixed 13-byte trailer. -/
def generateAuthFrames (connectionId : String) (clientId : Int) : List (List Nat) :=
  [authFrame1,
   putUint32BE (goUint32 clientId),
   authFrame3,
   goStringBytes connectionId,
   authFrame5]

/-! ### Stream transport (`internal/transport`)

`Stream` dials TLS, runs the `OnConnect` handshake callback, then loops:
check the context, set a read deadline, read up to 64 bytes, forward them to
the writer, ping when the interval has elapsed, and after the first
iteration replace the read timeout with the fixed two-second one. The
network and clock are modelled as a finite oracle: one `StreamIter` record
per loop iteration giving what the environment does at that iteration. The
model returns the list of read deadlines actually used (one entry per
executed `client.Read`) together with the final `streamErr`. -/

/-- The read-error classes distinguished by the transport. -/
inductive ReadError where
  | eof
  | connReset
  | timeout
  | other
deriving DecidableEq

/-- The error-classification branch of the read loop. -/
def classifyReadError : ReadError → String
  | .eof => "connection closed gracefully by peer"
  | .connReset => "connection reset by peer"
  | .timeout => "read timeout"
  | .other => "error reading from server"

/-- Environment behaviour for one iteration of the read loop. -/
structure StreamIter where
  /-- the context is observed cancelled at the top of the iteration -/
  ctxDone : Bool
  /-- `SetReadDeadline` succeeds -/
  deadlineOk : Bool
  /-- outcome of `client.Read`: an error class, or a byte count read -/
  readResult : Except ReadError Nat
  /-- the write of the read bytes to the sink succeeds -/
  writeOk : Bool
  /-- `time.Since(start) > config.PingInterval` holds at this iteration -/
  pingDue : Bool
  /-- `config.OnPing` succeeds (relevant only when a ping is due) -/
  pingOk : Bool
deriving DecidableEq

/-- `2 * time.Second` in nanoseconds: the fixed post-first-read timeout the
loop assigns (`readTimeout = 2 * time.Second`). -/
def twoSecondsNs : Nat := 2000000000

/-- The `Stream` read loop (part_001, `Stream`, label `stream:`), driven by a
finite oracle of iterations. `readTimeout` is the current value of the
loop's timeout variable (initially `config.ReadTimeout`). Returns the
deadlines used by the executed reads, and the final `streamErr` (`none` when
the loop ended by context cancellation or the oracle was exhausted with the
stream still running). -/
def streamLoop (readTimeout : Nat) : List StreamIter → List Nat × Option String
  | [] => ([], none)
  | it :: rest =>
    if it.ctxDone then ([], none)
    else if it.deadlineOk = false then ([], some "error setting read deadline")
    else
      match it.readResult with
      | .error e => ([readTimeout], some (classifyReadError e))
      | .ok _n =>
        if it.writeOk = false then ([readTimeout], some "error writing to writer")
        else if it.pingDue && !it.pingOk then ([readTimeout], some "error sending keep-alive")
        else
          (readTimeout :: (streamLoop twoSecondsNs rest).1, (streamLoop twoSecondsNs rest).2)

/-! ### Client state machine (`pkg/liveview/liveview.go`)

The client's mutable state is `connected`, the live-view command id, and the
cancellable stream context (modelled by whether a scope is held). `Connect`
and `Disconnect` are modelled as functions of the state and of the outcome
of the adapter calls they make (passed in as oracle values); besides the new
state they report which API calls they issued and which background
activities they launched, and return the caller-visible result. -/

/-- `clientState` (liveview.go:33-42): `hasScope` stands for
`streamContext`/`streamCancel` being non-nil. -/
structure ClientState where
  connected : Bool
  lvCommandId : Int
  hasScope : Bool
deriving DecidableEq

/-- The client state `NewClient` constructs (liveview.go:66-71). -/
def initialClientState : ClientState :=
  { connected := false, lvCommandId := 0, hasScope := false }

/-- An HTTP API call issued by the client. -/
inductive ApiCall where
  | startSession
  | stopSession (commandId : Int)
deriving DecidableEq

/-- A background goroutine launched by `Connect`. -/
inductive BgActivity where
  | poll (commandId : Int) (interval : Int)
  | stream (host : String) (port : String) (clientId : Int) (connId : String)
deriving DecidableEq

/-- Everything observable about one `Connect` call. -/
structure ConnectOutcome where
  state : ClientState
  calls : List ApiCall
  launched : List BgActivity
  result : Except String Unit
deriving DecidableEq

/-- Everything observable about one `Disconnect` call. -/
structure DisconnectOutcome where
  state : ClientState
  calls : List ApiCall
  result : Except String Unit
deriving DecidableEq

/-- `Connect` (liveview.go:80-125): reject if already connected; call
`InitiateLiveView` (outcome supplied as `startResult`); on failure return
the wrapped error with the state untouched. On success — in this source
order — create the scope, store the command id, set `connected`, launch the
poll goroutine, and only then parse the connection string: a parse failure
returns an error while keeping the mutated state and the running poll.
Otherwise launch the stream goroutine and return success. -/
def connect (st : ClientState) (startResult : Except String LiveviewResponse) :
    ConnectOutcome :=
  if st.connected then
    { state := st, calls := [], launched := [],
      result := .error "error during connect: client is already connected" }
  else
    match startResult with
    | .error e =>
      { state := st, calls := [.startSession], launched := [],
        result := .error ("error during connect: " ++ e) }
    | .ok resp =>
      let st1 : ClientState :=
        { connected := true, lvCommandId := resp.commandId, hasScope := true }
      match parseConnectionString resp.server with
      | .error e =>
        { state := st1, calls := [.startSession],
          launched := [.poll resp.commandId resp.pollingInterval],
          result := .error ("error during connect: parsing connection string: " ++ e) }
      | .ok (host, port, clientId, connId) =>
        { state := st1, calls := [.startSession],
          launched := [.poll resp.commandId resp.pollingInterval,
                       .stream host port clientId connId],
          result := .ok () }

/-- `Disconnect` (liveview.go:128-145): a no-op returning `nil` when not
connected; otherwise cancel the scope, clear `connected`, issue the
best-effort `StopCommand` (its failure is only logged, never returned),
clear the scope and the command id, and return `nil`. -/
def disconnect (st : ClientState) : DisconnectOutcome :=
  if st.connected = false then
    { state := st, calls := [], result := .ok () }
  else
    { state := { connected := false, lvCommandId := 0, hasScope := false },
      calls := [.stopSession st.lvCommandId],
      result := .ok () }

/-- `IsConnected` (liveview.go:148-150). -/
def isConnected (st : ClientState) : Bool := st.connected

/-- Oracle iterations for a concrete stream run: two successful reads
followed by a read timeout. -/
def exampleStreamIters : List StreamIter :=
  [{ ctxDone := false, deadlineOk := true, readResult := .ok 64,
     writeOk := true, pingDue := false, pingOk := true },
   { ctxDone := false, deadlineOk := true, readResult := .ok 10,
     writeOk := true, pingDue := true, pingOk := true },
   { ctxDone := false, deadlineOk := true, readResult := .error .timeout,
     writeOk := true, pingDue := false, pingOk := true }]

set_option maxRecDepth 40000

/-! ### Helper lemmas -/

/-- `goSplitCharAux` always produces at least one segment. -/
theorem goSplitCharAux_ne_nil (sep : Char) :
    ∀ (l acc : List Char), goSplitCharAux sep l acc ≠ [] := by
  intro l
  induction l with
  | nil => intro acc; simp [goSplitCharAux]
  | cons c rest ih =>
    intro acc
    by_cases h : c = sep <;> simp [goSplitCharAux, h, ih]

/-- Splitting a string never yields an empty segment list (so the dead
`len(pathSegments) == 0` check in `ParseConnectionString` never fires). -/
theorem goSplit1_ne_nil (s : String) (sep : Char) : goSplit1 s sep ≠ [] := by
  simp [goSplit1]
  exact goSplitCharAux_ne_nil sep s.data []

/-- Deadline trace of the stream read loop, generalized over the current
value of the loop's timeout variable: the first recorded deadline is that
value and all later ones are the fixed two-second timeout. -/
theorem streamLoop_deadline_aux :
    ∀ (iters : List StreamIter) (t i d : Nat),
      ((streamLoop t iters).1)[i]? = some d →
      d = if i = 0 then t else twoSecondsNs := by
  intro iters
  induction iters with
  | nil => intro t i d h; simp [streamLoop] at h
  | cons it rest ih =>
    intro t i d h
    rw [streamLoop] at h
    split at h
    · simp at h
    · split at h
      · simp at h
      · split at h
        · cases i with
          | zero => simp at h; simpa using h.symm
          | succ j => simp at h
        · split at h
          · cases i with
            | zero => simp at h; simpa using h.symm
            | succ j => simp at h
          · split at h
            · cases i with
              | zero => simp at h; simpa using h.symm
              | succ j => simp at h
            · cases i with
              | zero => simp at h; simpa using h.symm
              | succ j =>
                simp only [List.getElem?_cons_succ] at h
                have hj := ih twoSecondsNs j d h
                simp only [Nat.succ_ne_zero, if_false, ite_false]
                by_cases hj0 : j = 0
                · rw [if_pos hj0] at hj; exact hj
                · rw [if_neg hj0] at hj; exact hj

/-! ### Claim theorems -/

/-- C1: the claim says a `Connect` error always leaves the client
Disconnected with nothing running. The code violates this on a
connection-string parse failure: evaluated on a fresh client whose
start-session call succeeds (command id 123, interval 5) but whose server
URI has port 80, `Connect` returns the parse error while the state is left
`connected = true` with the command id stored and the poll activity
launched, and `IsConnected` reports `true`. -/
theorem connect_parse_failure_leaves_client_connected :
    (connect initialClientState
        (.ok { commandId := 123, pollingInterval := 5,
               server := { hostname := "host", port := "80",
                           path := "/path/ABC_123", queryClientId := "55" } }) =
      { state := { connected := true, lvCommandId := 123, hasScope := true },
        calls := [.startSession],
        launched := [.poll 123 5],
        result := .error
          "error during connect: parsing connection string: unexpected port 80. Expecting 443" }) ∧
    isConnected { connected := true, lvCommandId := 123, hasScope := true } = true := by
  constructor
  · decide
  · decide

/-- C2: the claim says a transport error (the HTTP client returning an error
and no response) makes each adapter operation return that operation's error
value and never crash. In the code the guard
`resp.StatusCode != http.StatusOK || err != nil` evaluates `resp.StatusCode`
first, dereferencing the nil response: all three operations end in a
nil-pointer panic rather than an error return. -/
theorem transport_error_dereferences_nil_response :
    pollIteration (.error "connection refused") = .nilPanic ∧
    initiateLiveViewOutcome (.error "connection refused") = .nilPanic ∧
    stopCommandOutcome (.error "connection refused") = .nilPanic :=
  ⟨rfl, rfl, rfl⟩

/-- C3 (counterexample): the claim says the client id returned on success is
always a positive integer, but `parseConnectionString` accepts the query
`client_id=-5` (any nonzero integer passes the `clientID == 0` check) and
succeeds returning the non-positive client id -5. -/
theorem parseConnectionString_negative_clientId_accepted :
    parseConnectionString
        { hostname := "host", port := "443", path := "/path/ABC_123",
          queryClientId := "-5" } =
      .ok ("host", "443", -5, "ABC") ∧ ¬(0 < (-5 : Int)) := by
  constructor
  · decide
  · decide

/-- C3 (amended): parse-connection-string is a pure function over the parsed
URL: with a non-empty hostname, port 443, a last path segment of the form
connectionId_suffix with non-empty connectionId, and a client_id query that
`Atoi` reads as a nonzero integer, it returns
(host, "443", clientId, connectionId); on success the client id is always a
NONZERO (not necessarily positive) integer and the port is "443"; a port
other than 443 fails, a missing/unparseable/zero client_id fails, and an
empty connection-id part fails. -/
theorem parseConnectionString_props :
    (∀ (u : GoURL) (cid : Int) (cn : String) (rest : List String),
      u.hostname ≠ "" →
      u.port = "443" →
      goSplit1 ((goSplit1 u.path '/').getLastD "") '_' = cn :: rest →
      rest ≠ [] →
      cn ≠ "" →
      goAtoi u.queryClientId = .ok cid →
      cid ≠ 0 →
      parseConnectionString u = .ok (u.hostname, "443", cid, cn))
  ∧ (∀ (u : GoURL) (h p : String) (cid : Int) (cn : String),
      parseConnectionString u = .ok (h, p, cid, cn) → cid ≠ 0 ∧ p = "443")
  ∧ (∀ u : GoURL, u.port ≠ "443" → ∃ e, parseConnectionString u = .error e)
  ∧ (∀ u : GoURL,
      (∀ cid : Int, goAtoi u.queryClientId = .ok cid → cid = 0) →
      ∃ e, parseConnectionString u = .error e)
  ∧ (∀ u : GoURL,
      (goSplit1 ((goSplit1 u.path '/').getLastD "") '_').headD "" = "" →
      ∃ e, parseConnectionString u = .error e) := by
  refine ⟨?_, ?_, ?_, ?_, ?_⟩
  · intro u cid cn rest hh hp hseg hrest hcn hcid hcz
    have hps := goSplit1_ne_nil u.path '/'
    cases rest with
    | nil => exact absurd rfl hrest
    | cons r rs =>
      simp only [List.getLastD_eq_getLast?] at hseg
      simp [parseConnectionString, hh, hp, hcid, hcz, List.length_eq_zero, hps,
        hseg, hcn]
  · intro u h p cid cn hok
    unfold parseConnectionString at hok
    split_ifs at hok with h1 h2 h3 h4
    cases hA : goAtoi u.queryClientId with
    | error e => rw [hA] at hok; simp at hok
    | ok v =>
      rw [hA] at hok
      by_cases h5 : v = 0
      · simp [h5] at hok
      · simp only [h5, if_false, ite_false, if_neg h5, Except.ok.injEq,
          Prod.mk.injEq] at hok
        obtain ⟨e1, e2, e3, e4⟩ := hok
        push_neg at h2
        exact ⟨e3 ▸ h5, e2 ▸ h2⟩
  · intro u hp
    by_cases h1 : u.hostname = ""
    · exact ⟨"invalid host", by simp [parseConnectionString, h1]⟩
    · exact ⟨"unexpected port " ++ u.port ++ ". Expecting 443",
        by simp [parseConnectionString, h1, hp]⟩
  · intro u hz
    by_cases h1 : u.hostname = ""
    · exact ⟨"invalid host", by simp [parseConnectionString, h1]⟩
    by_cases h2 : u.port = "443"
    case neg =>
      exact ⟨"unexpected port " ++ u.port ++ ". Expecting 443",
        by simp [parseConnectionString, h1, h2]⟩
    by_cases h3 : (goSplit1 u.path '/').length = 0
    · exact ⟨"invalid path", by simp [parseConnectionString, h1, h2, h3]⟩
    by_cases h4 : (goSplit1 ((goSplit1 u.path '/').getLastD "") '_').length < 2 ∨
        (goSplit1 ((goSplit1 u.path '/').getLastD "") '_').headD "" = ""
    · exact ⟨"invalid connection ID", by
        simp only [List.getLastD_eq_getLast?, List.headD_eq_head?] at h4
        simp [parseConnectionString, h1, h2, h3, h4]⟩
    · cases hA : goAtoi u.queryClientId with
      | error e =>
        exact ⟨"invalid client ID", by
          simp only [List.getLastD_eq_getLast?, List.headD_eq_head?] at h4
          simp [parseConnectionString, h1, h2, h3, h4, hA]⟩
      | ok v =>
        have hv := hz v hA
        exact ⟨"invalid client ID", by
          simp only [List.getLastD_eq_getLast?, List.headD_eq_head?] at h4
          simp [parseConnectionString, h1, h2, h3, h4, hA, hv]⟩
  · intro u hhd
    by_cases h1 : u.hostname = ""
    · exact ⟨"invalid host", by simp [parseConnectionString, h1]⟩
    by_cases h2 : u.port = "443"
    case neg =>
      exact ⟨"unexpected port " ++ u.port ++ ". Expecting 443",
        by simp [parseConnectionString, h1, h2]⟩
    by_cases h3 : (goSplit1 u.path '/').length = 0
    · exact ⟨"invalid path", by simp [parseConnectionString, h1, h2, h3]⟩
    · exact ⟨"invalid connection ID", by
        simp only [List.getLastD_eq_getLast?, List.headD_eq_head?] at hhd
        simp [parseConnectionString, h1, h2, h3, hhd]⟩

/-- Witness for the amended C3 theorem at concrete inputs: the spec's own
example (`client_id=55`) succeeds, and port 80, client_id 0, and an empty
connection-id part each fail. -/
theorem parseConnectionString_props_witness :
    parseConnectionString
        { hostname := "host", port := "443", path := "/path/ABC_123",
          queryClientId := "55" } = .ok ("host", "443", 55, "ABC") ∧
    (∃ e, parseConnectionString
        { hostname := "host", port := "80", path := "/path/ABC_123",
          queryClientId := "55" } = .error e) ∧
    (∃ e, parseConnectionString
        { hostname := "host", port := "443", path := "/path/ABC_123",
          queryClientId := "0" } = .error e) ∧
    (∃ e, parseConnectionString
        { hostname := "host", port := "443", path := "/path/_123",
          queryClientId := "55" } = .error e) := by
  refine ⟨?_, ?_, ?_, ?_⟩
  · exact parseConnectionString_props.1
      ⟨"host", "443", "/path/ABC_123", "55"⟩ 55 "ABC" ["123"]
      (by decide) rfl (by decide) (by decide) (by decide) (by decide) (by decide)
  · exact parseConnectionString_props.2.2.1
      ⟨"host", "80", "/path/ABC_123", "55"⟩ (by decide)
  · refine parseConnectionString_props.2.2.2.1
      ⟨"host", "443", "/path/ABC_123", "0"⟩ ?_
    intro cid h
    have h0 : goAtoi "0" = Except.ok (0 : Int) := by decide
    rw [h0] at h
    exact (Except.ok.inj h).symm
  · exact parseConnectionString_props.2.2.2.2
      ⟨"host", "443", "/path/_123", "55"⟩ (by decide)

/-- C4: for a transport-successful response whose body decodes to a command
status, stop-session succeeds iff the HTTP status is 200 and the decoded
code is exactly 902; with status 200 and any other code it returns the stop
error carrying the vendor code and message. -/
theorem stopCommand_success_iff_code902 (resp : GoHttpResponse CommandResponse)
    (c : CommandResponse) (hb : resp.body = .ok c) :
    (stopCommandOutcome (.ok resp) = .ok () ↔
      resp.statusCode = 200 ∧ c.code = 902) ∧
    (resp.statusCode = 200 → c.code ≠ 902 →
      stopCommandOutcome (.ok resp) =
        .err ("cannot stop command. API Code " ++ toString c.code ++
          " with message " ++ c.message)) := by
  obtain ⟨sc, body⟩ := resp
  simp only at hb
  subst hb
  by_cases h200 : sc = 200 <;> by_cases h9 : c.code = 902 <;>
    simp [stopCommandOutcome, h200, h9]

/-- Witness for C4 at concrete responses: code 902 under status 200
succeeds; code 900 with message "busy" under status 200 yields the stop
error with that code and message. -/
theorem stopCommand_success_iff_code902_witness :
    stopCommandOutcome (.ok ⟨200, .ok ⟨900, 200, "busy", false⟩⟩) =
      .err "cannot stop command. API Code 900 with message busy" ∧
    stopCommandOutcome (.ok ⟨200, .ok ⟨902, 200, "done", true⟩⟩) = .ok () := by
  constructor
  · exact (stopCommand_success_iff_code902 ⟨200, .ok ⟨900, 200, "busy", false⟩⟩
      ⟨900, 200, "busy", false⟩ rfl).2 rfl (by decide)
  · exact (stopCommand_success_iff_code902 ⟨200, .ok ⟨902, 200, "done", true⟩⟩
      ⟨902, 200, "done", true⟩ rfl).1.mpr ⟨rfl, rfl⟩

/-- C5: build-handshake-frames is a deterministic pure function: for every
connection id and every (4-byte-representable) client id it returns exactly
the five blocks — fixed 24-byte header, the 4-byte big-endian encoding of
the client id, fixed 74-byte header, the raw connection-id bytes with no
terminator, fixed 13-byte trailer — with lengths 24, 4, 74,
len(connection id), 13. -/
theorem generateAuthFrames_layout (connectionId : String) (clientId : Int)
    (h0 : 0 ≤ clientId) (h32 : clientId < 2 ^ 32) :
    generateAuthFrames connectionId clientId =
      [authFrame1, putUint32BE clientId.toNat, authFrame3,
       goStringBytes connectionId, authFrame5] ∧
    (generateAuthFrames connectionId clientId).map List.length =
      [24, 4, 74, (goStringBytes connectionId).length, 13] := by
  have hmod : clientId % (2 ^ 32 : Int) = clientId := Int.emod_eq_of_lt h0 h32
  constructor
  · unfold generateAuthFrames goUint32
    rw [hmod]
  · simp [generateAuthFrames, authFrame1, authFrame3, authFrame5, putUint32BE]

/-- Witness for C5 at the spec's example: connection id "ABC" and client id
55 give block 2 = big-endian 55 and block 4 = the bytes of "ABC". -/
theorem generateAuthFrames_layout_witness :
    generateAuthFrames "ABC" 55 =
      [authFrame1, putUint32BE 55, authFrame3, goStringBytes "ABC", authFrame5] ∧
    putUint32BE 55 = [0, 0, 0, 55] ∧ goStringBytes "ABC" = [65, 66, 67] := by
  refine ⟨?_, by decide, by decide⟩
  have h := generateAuthFrames_layout "ABC" 55 (by decide) (by decide)
  simpa using h.1

/-- C6: in the stream read loop, every deadline actually used by a read is
the caller-supplied initial timeout for the first read and the fixed
two-second timeout for every subsequent read, for every environment
behaviour. -/
theorem stream_read_deadlines (cfgTimeout : Nat) (iters : List StreamIter)
    (i d : Nat) (h : ((streamLoop cfgTimeout iters).1)[i]? = some d) :
    d = if i = 0 then cfgTimeout else twoSecondsNs :=
  streamLoop_deadline_aux iters cfgTimeout i d h

/-- Witness for C6 on a concrete run (initial timeout 15s, two successful
reads then a timeout): the deadline trace is [15s, 2s, 2s], and the theorem
applied at index 1 yields the two-second deadline. -/
theorem stream_read_deadlines_witness :
    ((streamLoop 15000000000 exampleStreamIters).1 =
      [15000000000, twoSecondsNs, twoSecondsNs]) ∧
    (2000000000 : Nat) = if 1 = 0 then 15000000000 else twoSecondsNs := by
  constructor
  · decide
  · exact stream_read_deadlines 15000000000 exampleStreamIters 1 2000000000
      (by decide)

/-- C7: calling Connect on an already-connected client returns the
already-connected error, issues no start-session request, launches nothing,
and leaves the stored state unchanged, whatever the start-session oracle
would have answered. -/
theorem connect_rejects_when_already_connected (st : ClientState)
    (startResult : Except String LiveviewResponse) (h : st.connected = true) :
    connect st startResult =
      { state := st, calls := [], launched := [],
        result := .error "error during connect: client is already connected" } := by
  simp [connect, h]

/-- Witness for C7 at a concrete connected state: even with a start-session
response available, a second Connect changes nothing and errors. -/
theorem connect_rejects_when_already_connected_witness :
    connect ⟨true, 7, true⟩
        (.ok ⟨99, 5, ⟨"host", "443", "/p/ABC_1", "3"⟩⟩) =
      { state := ⟨true, 7, true⟩, calls := [], launched := [],
        result := .error "error during connect: client is already connected" } :=
  connect_rejects_when_already_connected ⟨true, 7, true⟩
    (.ok ⟨99, 5, ⟨"host", "443", "/p/ABC_1", "3"⟩⟩) rfl

/-- C8: Disconnect on a client that is already Disconnected returns no
error, issues no stop-session call, and leaves the state unchanged. -/
theorem disconnect_noop_when_disconnected (st : ClientState)
    (h : st.connected = false) :
    disconnect st = { state := st, calls := [], result := .ok () } := by
  simp [disconnect, h]

/-- Witness for C8 at the freshly-constructed client state. -/
theorem disconnect_noop_when_disconnected_witness :
    disconnect initialClientState =
      { state := initialClientState, calls := [], result := .ok () } :=
  disconnect_noop_when_disconnected initialClientState rfl

/-- C9: the live-view URI builder agrees with the spec-side template map on
every credential set — tag "camera" gives the v5 cameras template, tags
"owl"/"hawk" the v2 owls template, tags "doorbell"/"lotus" the v2 doorbells
template, with region, account id, network id and camera id substituted in
that order — and every other tag yields the unsupported-device error. -/
theorem createLiveViewURI_matches_spec (cc : ClientCredentials) :
    createLiveViewURI cc = (liveViewURISpec cc).elim
      (Except.error ("cannot build path for unknown device type: " ++ cc.deviceType))
      Except.ok := by
  obtain ⟨r, tk, dt, a, n, c⟩ := cc
  by_cases h1 : dt = "camera"
  · subst h1; rfl
  by_cases h2 : dt = "owl" ∨ dt = "hawk"
  · rcases h2 with h2 | h2 <;> (subst h2; rfl)
  by_cases h3 : dt = "doorbell" ∨ dt = "lotus"
  · rcases h3 with h3 | h3 <;> (subst h3; rfl)
  · simp only [createLiveViewURI, liveViewURISpec, h1, h2, h3, if_false, ite_false]
    simp [h1, h2, h3]

/-- C10: for every integer client id, block 2 of the handshake frames is the
4-byte big-endian encoding of the client id reduced modulo 2^32; in
particular a negative client id is not rejected but wrapped, e.g. -1 encodes
as FF FF FF FF. -/
theorem generateAuthFrames_clientId_mod32 (connectionId : String) (clientId : Int) :
    (generateAuthFrames connectionId clientId)[1]? =
      some (putUint32BE ((clientId % (2 ^ 32 : Int)).toNat)) ∧
    (generateAuthFrames "XY" (-1))[1]? = some [255, 255, 255, 255] := by
  constructor
  · rfl
  · decide

end BlinkMw
